import Mathlib

/-!
Verification of the marketplace block-builder core (`src/service.rs`, plus a
spec-modelled fragment of the builder-state actor whose source file is not
part of the delivered sources).

The data model is a shallow embedding: commitments, channel handles and keys
are natural numbers, the `HashMap`s of `GlobalState` are association lists
with overwrite-on-insert semantics, and the builder signature scheme is a
concrete pairing of the signing key with the signed message (validation
checks that the public key equals the signer and the message matches).
Asynchronous effects are made explicit: the broadcast of a transaction may
fail according to an arbitrary failure pattern passed as a function, and the
outcome of waiting on the reply channel of `available_blocks` is an explicit
`RecvOutcome` parameter.
-/

namespace MarketplaceBuilder

/-- A transaction: a namespace id plus opaque payload bytes
(`TYPES::Transaction` with the `BuilderTransaction` trait). -/
structure Tx where
  ns : Nat
  bytes : List Nat
deriving DecidableEq, Repr

/-- Content-addressed commitment of a transaction (`tx.commit()`). -/
def Tx.commitment (t : Tx) : Nat :=
  Nat.pair t.ns (t.bytes.foldl (fun a b => a * 257 + (b + 1)) 1)

/-- Origin of a received transaction (`TransactionSource`). -/
inductive TransactionSource where
  | external
  | hotShot
deriving DecidableEq, Repr

/-- The distinct failure cases of `BuildError::Error` produced by
`service.rs`, one constructor per distinct message. -/
inductive BuildErr where
  | invalidSignature
  | viewAlreadyDecided
  | noBlocksAvailable
  | channelClosed
  | blockNotFound
  | noBuilderState
deriving DecidableEq, Repr

/-- A builder signature over a message of type `M`: the model records the
signing key and the message (`BuilderSignatureKey::sign_*`). -/
structure BSig (M : Type) where
  signer : Nat
  message : M
deriving DecidableEq, Repr

/-- Signing with a private key (public key of a matched pair is the same
number in this model). -/
def bsign {M : Type} (sk : Nat) (m : M) : BSig M := ⟨sk, m⟩

/-- Signature validation against a public key and a message. -/
def bvalidate {M : Type} [DecidableEq M] (pk : Nat) (s : BSig M) (m : M) : Bool :=
  decide (pk = s.signer ∧ m = s.message)

/-- Block payload: in the model a payload is the list of its transactions,
as in the test payload type. -/
abbrev Payload := List Tx

/-- Builder commitment of a `(payload, metadata)` pair
(`BlockPayload::builder_commitment`). -/
def builder_commitment (p : Payload) (metadata : Nat) : Nat :=
  Nat.pair (p.foldl (fun a t => a * 1000003 + t.commitment + 1) 3) metadata

/-- Stored per-`(builder commitment, view)` block record (`BlockInfo`). -/
structure BlockInfo where
  block_payload : Payload
  metadata : Nat
  offered_fee : Nat
deriving DecidableEq, Repr

/-- Result of a build cycle handed to `update_global_state`
(`BuildBlockInfo`, restricted to the fields `service.rs` reads). -/
structure BuildBlockInfo where
  builder_hash : Nat
  block_payload : Payload
  metadata : Nat
  offered_fee : Nat
deriving DecidableEq, Repr

/-- Cached summary of the last built block (`ResponseMessage`). -/
structure ResponseMessage where
  builder_hash : Nat
  block_size : Nat
  offered_fee : Nat
deriving DecidableEq, Repr

/-- Signed offer returned by `available_blocks` (`AvailableBlockInfo`). -/
structure AvailableBlockInfo where
  block_hash : Nat
  block_size : Nat
  offered_fee : Nat
  signature : BSig (Nat × Nat × Nat)
  sender : Nat
deriving DecidableEq, Repr

/-- Full block data returned by `claim_block` (`AvailableBlockData`). -/
structure AvailableBlockData where
  fee : Nat
  fee_signature : BSig Nat
  block_payload : Payload
  metadata : Nat
  signature : BSig Nat
  sender : Nat
deriving DecidableEq, Repr

/-- Association-list lookup, the model of `HashMap::get`. -/
def mlookup {α : Type} (m : List ((Nat × Nat) × α)) (k : Nat × Nat) : Option α :=
  (m.find? (fun p => decide (p.1 = k))).map Prod.snd

/-- Association-list insert with overwrite, the model of `HashMap::insert`. -/
def minsert {α : Type} (m : List ((Nat × Nat) × α)) (k : Nat × Nat) (v : α) :
    List ((Nat × Nat) × α) :=
  (k, v) :: m.filter (fun p => decide (p.1 ≠ k))

/-- Insert-if-absent, the model of `HashMap::entry(..).or_insert_with(..)`. -/
def minsertIfAbsent {α : Type} (m : List ((Nat × Nat) × α)) (k : Nat × Nat) (v : α) :
    List ((Nat × Nat) × α) :=
  match mlookup m k with
  | some _ => m
  | none => (k, v) :: m

/-- The shared registry (`GlobalState<TYPES>`); channel sender handles are
numbers. -/
structure GlobalState where
  namespace_id : Option Nat
  block_hash_to_block : List ((Nat × Nat) × BlockInfo)
  spawned_builder_states : List ((Nat × Nat) × Nat)
  builder_state_to_last_built_block : List ((Nat × Nat) × ResponseMessage)
  last_garbage_collected_view_num : Nat
  highest_view_num_builder_id : Nat × Nat
deriving DecidableEq, Repr

/-- `GlobalState::new`: a single bootstrap entry, which is also the highest
view builder id. -/
def GlobalState.new (ns : Option Nat) (bootstrap_sender : Nat)
    (bootstrapped_builder_state_id : Nat) (bootstrapped_view_num : Nat)
    (last_garbage_collected_view_num : Nat) : GlobalState :=
  { namespace_id := ns
    block_hash_to_block := []
    spawned_builder_states :=
      [((bootstrapped_builder_state_id, bootstrapped_view_num), bootstrap_sender)]
    builder_state_to_last_built_block := []
    last_garbage_collected_view_num := last_garbage_collected_view_num
    highest_view_num_builder_id :=
      (bootstrapped_builder_state_id, bootstrapped_view_num) }

/-- `GlobalState::register_builder_state`: insert the sender under
`(vid, view)` and track the maximal view. -/
def GlobalState.register_builder_state (s : GlobalState) (vid_commmit : Nat)
    (view_num : Nat) (request_sender : Nat) : GlobalState :=
  let states := minsert s.spawned_builder_states (vid_commmit, view_num) request_sender
  if view_num > s.highest_view_num_builder_id.2 then
    { s with spawned_builder_states := states
             highest_view_num_builder_id := (vid_commmit, view_num) }
  else
    { s with spawned_builder_states := states }

/-- `GlobalState::update_global_state`: record a built block (older records
win) and overwrite the last-built cache for the anchor. -/
def GlobalState.update_global_state (s : GlobalState) (build_block_info : BuildBlockInfo)
    (builder_vid_commitment : Nat) (view_num : Nat) (response_msg : ResponseMessage) :
    GlobalState :=
  { s with
    block_hash_to_block :=
      minsertIfAbsent s.block_hash_to_block (build_block_info.builder_hash, view_num)
        { block_payload := build_block_info.block_payload
          metadata := build_block_info.metadata
          offered_fee := build_block_info.offered_fee }
    builder_state_to_last_built_block :=
      minsert s.builder_state_to_last_built_block
        (builder_vid_commitment, view_num) response_msg }

/-- `GlobalState::remove_handles`: compute the cutoff, retain states at or
above it, set the GC watermark, return the cutoff. -/
def GlobalState.remove_handles (s : GlobalState) (on_decide_view : Nat) :
    Nat × GlobalState :=
  let cutoff := min s.highest_view_num_builder_id.2 on_decide_view
  let states := s.spawned_builder_states.filter (fun p => decide (cutoff ≤ p.1.2))
  let gc_view := if 0 < cutoff then cutoff - 1 else 0
  (cutoff,
   { s with spawned_builder_states := states
            last_garbage_collected_view_num := gc_view })

/-- `GlobalState::get_channel_for_matching_builder_or_highest_view_buider`
(the name, misspelling included, is the source's). -/
def GlobalState.get_channel_for_matching_builder_or_highest_view_buider
    (s : GlobalState) (key : Nat × Nat) : Except BuildErr Nat :=
  match mlookup s.spawned_builder_states key with
  | some channel => .ok channel
  | none =>
    match mlookup s.spawned_builder_states s.highest_view_num_builder_id with
    | some channel => .ok channel
    | none => .error .noBuilderState

/-- Namespace retention applied by `handle_received_txns`
(`txns.retain(|txn| txn.namespace_id() == namespace_id)`). -/
def nsRetain (ns : Option Nat) (txns : List Tx) : List Tx :=
  match ns with
  | some n => txns.filter (fun t => decide (t.ns = n))
  | none => txns

/-- The per-transaction loop of `handle_received_txns`: the commitment is
pushed before the broadcast is attempted, so a failed broadcast (given by
the failure pattern `bFails`) is logged but still contributes its
commitment; the second component is the list of transactions actually
broadcast. -/
def txBroadcastLoop (bFails : Tx → Bool) : List Tx → List Nat × List Tx
  | [] => ([], [])
  | t :: rest =>
    let r := txBroadcastLoop bFails rest
    (t.commitment :: r.1, if bFails t then r.2 else t :: r.2)

/-- `handle_received_txns`: filter by namespace, then loop; always `Ok`. -/
def handle_received_txns (bFails : Tx → Bool) (txns : List Tx)
    (source : TransactionSource) (ns : Option Nat) :
    Except BuildErr (List Nat) × List Tx :=
  let _ := source
  let filtered := nsRetain ns txns
  let r := txBroadcastLoop bFails filtered
  (.ok r.1, r.2)

/-- `GlobalState::submit_client_txns`: delegate to `handle_received_txns`
with the external source and the configured namespace. -/
def GlobalState.submit_client_txns (s : GlobalState) (bFails : Tx → Bool)
    (txns : List Tx) : Except BuildErr (List Nat) × List Tx :=
  handle_received_txns bFails txns .external s.namespace_id

/-- The transaction-commitment list computed by `handle_da_event` for the DA
bus: when a namespace is configured the source keeps the transactions whose
namespace id is DIFFERENT from it (`filter(|txn| txn.namespace_id() !=
namespace_id)`). -/
def daProposalTxnCommitments (ns : Option Nat) (payload_txs : List Tx) : List Nat :=
  match ns with
  | some n => (payload_txs.filter (fun t => decide (t.ns ≠ n))).map Tx.commitment
  | none => payload_txs.map Tx.commitment

/-- The commitment list the specification claims for the DA bus: the same
filtering rule as transaction submission (keep the configured namespace).
This definition follows the spec's words, for comparison with
`daProposalTxnCommitments` which follows the source. -/
def daProposalTxnCommitmentsClaim (ns : Option Nat) (payload_txs : List Tx) : List Nat :=
  (nsRetain ns payload_txs).map Tx.commitment

/-- The request gateway (`ProxyGlobalState`): registry plus the builder key
pair `(public, private)`. -/
structure ProxyGlobalState where
  global_state : GlobalState
  builder_keys : Nat × Nat
deriving DecidableEq, Repr

/-- `ProxyGlobalState::builder_address`. -/
def ProxyGlobalState.builder_address (p : ProxyGlobalState) : Except BuildErr Nat :=
  .ok p.builder_keys.1

/-- `sign_block_info`: builder signature over
`(block_size, offered_fee, builder_hash)`. -/
def sign_block_info (sk : Nat) (block_size offered_fee builder_hash : Nat) :
    BSig (Nat × Nat × Nat) :=
  bsign sk (block_size, offered_fee, builder_hash)

/-- The signed single offer constructed from a `ResponseMessage` at the end
of `available_blocks`. -/
def signedBlockInfo (keys : Nat × Nat) (r : ResponseMessage) : AvailableBlockInfo :=
  { block_hash := r.builder_hash
    block_size := r.block_size
    offered_fee := r.offered_fee
    signature := sign_block_info keys.2 r.block_size r.offered_fee r.builder_hash
    sender := keys.1 }

/-- Outcome of waiting on the ephemeral reply channel of `available_blocks`:
a reply within the deadline, expiry of the total deadline, or a closed
channel. -/
inductive RecvOutcome where
  | reply (r : ResponseMessage)
  | expired
  | closed
deriving DecidableEq, Repr

/-- The response phase of `available_blocks` (source lines 486-553): a reply
is signed and returned as a one-element list; on deadline expiry the
last-built cache entry is returned (signed) when present and the call fails
with no-blocks-available otherwise; a closed channel is an error. -/
def available_blocks_respond (keys : Nat × Nat) (cache : Option ResponseMessage) :
    RecvOutcome → Except BuildErr (List AvailableBlockInfo)
  | .reply r => .ok [signedBlockInfo keys r]
  | .expired =>
    match cache with
    | some r => .ok [signedBlockInfo keys r]
    | none => .error .noBlocksAvailable
  | .closed => .error .channelClosed

/-- `ProxyGlobalState::available_blocks` as a function of the request, the
validity of the caller's signature over the parent commitment, and the
reply-channel outcome. The routing between the pre-check and the response
phase only broadcasts the request (to the exact-match state or, after the
half-deadline, to the fallback); it is absorbed into the `outcome`
parameter. The function reads the registry and never writes it, mirroring
the `&self` receiver and read locks of the source. -/
def ProxyGlobalState.available_blocks (p : ProxyGlobalState) (for_parent : Nat)
    (view_number : Nat) (sigOk : Bool) (outcome : RecvOutcome) :
    Except BuildErr (List AvailableBlockInfo) :=
  if sigOk = false then .error .invalidSignature
  else if view_number < p.global_state.last_garbage_collected_view_num ∧
      p.global_state.highest_view_num_builder_id.2 ≠
        p.global_state.last_garbage_collected_view_num then
    .error .viewAlreadyDecided
  else
    available_blocks_respond p.builder_keys
      (mlookup p.global_state.builder_state_to_last_built_block (for_parent, view_number))
      outcome

/-- `ProxyGlobalState::claim_block` (source lines 567-645): validate the
caller's signature over the block hash, look up the stored record under
`(block_hash, view)`, and either return the signed block data or fail with
block-not-found. -/
def ProxyGlobalState.claim_block (p : ProxyGlobalState) (block_hash : Nat)
    (view_number : Nat) (sender : Nat) (signature : BSig Nat) :
    Except BuildErr AvailableBlockData :=
  if bvalidate sender signature block_hash = false then .error .invalidSignature
  else
    match mlookup p.global_state.block_hash_to_block (block_hash, view_number) with
    | some block_info =>
      .ok { fee := block_info.offered_fee
            fee_signature := bsign p.builder_keys.2 block_info.offered_fee
            block_payload := block_info.block_payload
            metadata := block_info.metadata
            signature := bsign p.builder_keys.2
              (builder_commitment block_info.block_payload block_info.metadata)
            sender := p.builder_keys.1 }
    | none => .error .blockNotFound

/-- Registry states reachable from bootstrap by the registry operations. -/
inductive Reachable : GlobalState → Prop where
  | boot : ∀ ns sender vc view gc, Reachable (GlobalState.new ns sender vc view gc)
  | register : ∀ s vid view sender, Reachable s →
      Reachable (s.register_builder_state vid view sender)
  | decide : ∀ s d, Reachable s → Reachable (s.remove_handles d).2
  | update : ∀ s bb vc view resp, Reachable s →
      Reachable (s.update_global_state bb vc view resp)

/-- Modelled from the spec: the compile-time constant
`ALLOW_EMPTY_BLOCK_PERIOD` of the builder-state module, whose source file is
not among the delivered sources; the spec gives the value 3. -/
def ALLOW_EMPTY_BLOCK_PERIOD : Nat := 3

/-- Modelled from the spec: the per-anchor builder state fields relevant to
request handling, from the data model of the builder-state actor whose
source file is not among the delivered sources. The `seen_da` map is kept as
`(view, claimed transaction commitments)` pairs. -/
structure BuilderState where
  anchorVC : Nat
  anchorView : Nat
  mempool : List Tx
  seenDaClaims : List (Nat × List Nat)
  allowEmptyBlockUntil : Nat
deriving DecidableEq, Repr

/-- Modelled from the spec: a mempool transaction is unavailable for a
request at view `vreq` when some DA proposal at a view at most `vreq`
already claims its commitment. -/
def claimedBelow (s : BuilderState) (vreq : Nat) (t : Tx) : Bool :=
  s.seenDaClaims.any (fun p => decide (p.1 ≤ vreq) && p.2.contains t.commitment)

/-- Modelled from the spec: the mempool after filtering out transactions
already claimed by a seen DA proposal at a view at most the requested one. -/
def availTxs (s : BuilderState) (vreq : Nat) : List Tx :=
  s.mempool.filter (fun t => !(claimedBelow s vreq t))

/-- Size of the block built over a list of transactions: total payload
bytes; the empty block has size 0. -/
def blockSize (txs : List Tx) : Nat :=
  (txs.map (fun t => t.bytes.length)).sum

/-- Modelled from the spec: request handling of the builder-state actor
(spec section 4.3.1), whose source file is not among the delivered sources.
The request is accepted only when the parent commitment matches the anchor
and the view is at least the anchor view; with an empty available mempool
and a request view beyond `allowEmptyBlockUntil` no reply is sent; otherwise
a block is built from the available transactions and, when that build is
non-empty, `allowEmptyBlockUntil` is advanced to the request view plus
`ALLOW_EMPTY_BLOCK_PERIOD`. Recording the result in the global registry is
omitted here; only the reply and the state update are modelled. -/
def processRequest (s : BuilderState) (vcReq vReq : Nat) :
    Option ResponseMessage × BuilderState :=
  if vcReq = s.anchorVC ∧ s.anchorView ≤ vReq then
    let avail := availTxs s vReq
    if avail = [] ∧ s.allowEmptyBlockUntil < vReq then (none, s)
    else
      let resp : ResponseMessage :=
        { builder_hash := builder_commitment avail avail.length
          block_size := blockSize avail
          offered_fee := blockSize avail }
      let s' :=
        if avail = [] then s
        else { s with allowEmptyBlockUntil := vReq + ALLOW_EMPTY_BLOCK_PERIOD }
      (some resp, s')
  else (none, s)

/-- Number of `available_blocks` attempts the simulated consensus of the
finalization test performs in one round: one when the builder replies,
otherwise the full retry budget `R`. -/
def roundAttempts (R : Nat) (res : Option ResponseMessage) : Nat :=
  match res with
  | some _ => 1
  | none => R

theorem mlookup_nil {α : Type} (q : Nat × Nat) : mlookup ([] : List ((Nat × Nat) × α)) q = none :=
  rfl

theorem mlookup_cons {α : Type} (a : (Nat × Nat) × α) (l : List ((Nat × Nat) × α))
    (q : Nat × Nat) :
    mlookup (a :: l) q = if a.1 = q then some a.2 else mlookup l q := by
  by_cases h : a.1 = q <;> simp [mlookup, List.find?, h]

theorem mlookup_minsert {α : Type} (m : List ((Nat × Nat) × α)) (k q : Nat × Nat) (v : α) :
    mlookup (minsert m k v) q = if q = k then some v else mlookup m q := by
  unfold minsert
  rw [mlookup_cons]
  by_cases hqk : q = k
  · simp [hqk]
  · have hkq : ¬(k = q) := fun h => hqk h.symm
    simp only [if_neg hkq, if_neg hqk]
    induction m with
    | nil => rfl
    | cons a rest ih =>
      rw [List.filter_cons]
      by_cases hak : a.1 = k
      · rw [if_neg (by simp [hak]), ih, mlookup_cons,
          if_neg (show ¬(a.1 = q) by rw [hak]; exact hkq)]
      · rw [if_pos (by simp [hak]), mlookup_cons, mlookup_cons, ih]

theorem mlookup_filter_view {α : Type} (m : List ((Nat × Nat) × α)) (cutoff : Nat)
    (q : Nat × Nat) (hq : cutoff ≤ q.2) :
    mlookup (m.filter (fun p => decide (cutoff ≤ p.1.2))) q = mlookup m q := by
  induction m with
  | nil => rfl
  | cons a rest ih =>
    by_cases hk : cutoff ≤ a.1.2
    · simp [List.filter_cons, hk, mlookup_cons, ih]
    · have haq : ¬(a.1 = q) := fun h => hk (h ▸ hq)
      simp [List.filter_cons, hk, mlookup_cons, haq, ih]

theorem txBroadcastLoop_fst (bFails : Tx → Bool) (l : List Tx) :
    (txBroadcastLoop bFails l).1 = l.map Tx.commitment := by
  induction l with
  | nil => rfl
  | cons t rest ih => simp [txBroadcastLoop, ih]

theorem respond_ne_viewAlreadyDecided (keys : Nat × Nat) (cache : Option ResponseMessage)
    (o : RecvOutcome) :
    available_blocks_respond keys cache o ≠ .error .viewAlreadyDecided := by
  cases o <;> cases cache <;> simp [available_blocks_respond]

theorem reachable_highest_mem (s : GlobalState) (h : Reachable s) :
    ∃ c, mlookup s.spawned_builder_states s.highest_view_num_builder_id = some c := by
  induction h with
  | boot ns sender vc view gc =>
    exact ⟨sender, by simp [GlobalState.new, mlookup, List.find?]⟩
  | register s' vid view sender hs ih =>
    obtain ⟨c, hc⟩ := ih
    unfold GlobalState.register_builder_state
    by_cases hlt : view > s'.highest_view_num_builder_id.2
    · exact ⟨sender, by simp [hlt, mlookup_minsert]⟩
    · by_cases hk : s'.highest_view_num_builder_id = (vid, view)
      · exact ⟨sender, by simp [hlt, mlookup_minsert, hk]⟩
      · exact ⟨c, by simp [hlt, mlookup_minsert, hk, hc]⟩
  | decide s' d hs ih =>
    obtain ⟨c, hc⟩ := ih
    refine ⟨c, ?_⟩
    unfold GlobalState.remove_handles
    simp only
    rw [mlookup_filter_view]
    · exact hc
    · exact Nat.min_le_left _ _
  | update s' bb vc view resp hs ih =>
    obtain ⟨c, hc⟩ := ih
    exact ⟨c, by simpa [GlobalState.update_global_state] using hc⟩

/-- Claim C6: `remove_handles` computes the cutoff as the minimum of the
highest registered view and the decide view, retains exactly the registered
entries at or above the cutoff, sets the GC watermark to cutoff minus one
(zero when the cutoff is zero), returns the cutoff, and leaves the built and
last-built maps untouched. -/
theorem remove_handles_collect_semantics (s : GlobalState) (d : Nat) :
    (s.remove_handles d).1 = min s.highest_view_num_builder_id.2 d ∧
    (∀ e, e ∈ (s.remove_handles d).2.spawned_builder_states ↔
      (e ∈ s.spawned_builder_states ∧ (s.remove_handles d).1 ≤ e.1.2)) ∧
    (s.remove_handles d).2.last_garbage_collected_view_num =
      (if 0 < (s.remove_handles d).1 then (s.remove_handles d).1 - 1 else 0) ∧
    (s.remove_handles d).2.block_hash_to_block = s.block_hash_to_block ∧
    (s.remove_handles d).2.builder_state_to_last_built_block =
      s.builder_state_to_last_built_block := by
  refine ⟨rfl, ?_, rfl, rfl, rfl⟩
  intro e
  simp [GlobalState.remove_handles, List.mem_filter]

/-- Claim C10: `handle_received_txns` (and through it `submit_client_txns`)
returns `Ok` with the commitments of all namespace-filtered transactions in
input order, for every broadcast failure pattern; a failed broadcast never
removes a commitment from the returned list. -/
theorem handle_received_txns_ok_all_filtered (bFails : Tx → Bool) (txns : List Tx)
    (source : TransactionSource) (ns : Option Nat) (s : GlobalState) :
    (handle_received_txns bFails txns source ns).1 =
      .ok ((nsRetain ns txns).map Tx.commitment) ∧
    (s.submit_client_txns bFails txns).1 =
      .ok ((nsRetain s.namespace_id txns).map Tx.commitment) := by
  constructor <;>
    simp [handle_received_txns, GlobalState.submit_client_txns, txBroadcastLoop_fst]

/-- Claim C3, counterexample: starting from bootstrap `(7, 0)`, registering
a builder at view 10 and collecting at decide view 10 leaves the GC
watermark at 9; a subsequent `register_builder_state` at view 3 — at or
below the watermark, and not the bootstrap state — is nevertheless
inserted into the registry. -/
theorem register_below_gc_inserts_cex :
    ((((GlobalState.new none 0 7 0 0).register_builder_state 8 10 1).remove_handles
        10).2.register_builder_state 9 3 2).last_garbage_collected_view_num = 9 ∧
    (3 : Nat) ≤ 9 ∧
    mlookup ((((GlobalState.new none 0 7 0 0).register_builder_state 8 10 1).remove_handles
        10).2.register_builder_state 9 3 2).spawned_builder_states (9, 3) = some 2 := by
  decide

/-- Claim C3, amended: `register_builder_state` never refuses a
registration: it inserts the sender under `(vid, view)` unconditionally,
regardless of the GC watermark, leaves the watermark unchanged, and updates
the highest builder id exactly when the view exceeds the current highest. -/
theorem register_builder_state_always_inserts (s : GlobalState) (vid view sender : Nat) :
    mlookup (s.register_builder_state vid view sender).spawned_builder_states (vid, view) =
      some sender ∧
    (s.register_builder_state vid view sender).last_garbage_collected_view_num =
      s.last_garbage_collected_view_num ∧
    (s.register_builder_state vid view sender).highest_view_num_builder_id =
      (if s.highest_view_num_builder_id.2 < view then (vid, view)
       else s.highest_view_num_builder_id) := by
  unfold GlobalState.register_builder_state
  by_cases h : view > s.highest_view_num_builder_id.2 <;>
    simp [h, mlookup_minsert, Nat.lt_iff_add_one_le]

/-- Claim C2: on the concrete input of a configured namespace 0 and a
proposal holding one transaction of namespace 0 and one of namespace 1,
`handle_da_event` broadcasts the commitments of the FOREIGN-namespace
transactions and drops the own-namespace one, the opposite of the
submission-side rule the claim (and the source's own comment) state. -/
theorem da_namespace_filter_inverted :
    daProposalTxnCommitments (some 0) [⟨0, [1]⟩] = [] ∧
    daProposalTxnCommitmentsClaim (some 0) [⟨0, [1]⟩] = [Tx.commitment ⟨0, [1]⟩] ∧
    daProposalTxnCommitments (some 0) [⟨1, [1]⟩] = [Tx.commitment ⟨1, [1]⟩] ∧
    daProposalTxnCommitmentsClaim (some 0) [⟨1, [1]⟩] = [] := by
  decide

/-- Claim C4: `available_blocks` fails with `ViewAlreadyDecided` — before
any request is routed to a builder state, and without touching the registry,
which the call only ever reads — exactly when the caller's signature check
passes, the requested view is strictly below the GC watermark, and the
highest registered view differs from the watermark. -/
theorem available_blocks_view_already_decided_iff (p : ProxyGlobalState)
    (for_parent view_number : Nat) (sigOk : Bool) (outcome : RecvOutcome) :
    p.available_blocks for_parent view_number sigOk outcome = .error .viewAlreadyDecided ↔
      (sigOk = true ∧
       view_number < p.global_state.last_garbage_collected_view_num ∧
       p.global_state.highest_view_num_builder_id.2 ≠
         p.global_state.last_garbage_collected_view_num) := by
  cases sigOk with
  | false => simp [ProxyGlobalState.available_blocks]
  | true =>
    by_cases hc : view_number < p.global_state.last_garbage_collected_view_num ∧
        p.global_state.highest_view_num_builder_id.2 ≠
          p.global_state.last_garbage_collected_view_num
    · simp [ProxyGlobalState.available_blocks, hc]
    · simp only [ProxyGlobalState.available_blocks, Bool.true_eq_false, if_false, if_neg hc]
      simp [respond_ne_viewAlreadyDecided, hc]

/-- Claim C5: when the total deadline of `available_blocks` expires with no
reply, the call returns the signed cached last-built response for
`(parent, view)` when the cache holds one, and fails with
`NoBlocksAvailable` otherwise (assuming the request got past the
already-decided pre-check). -/
theorem available_blocks_expired_fallback (p : ProxyGlobalState)
    (for_parent view_number : Nat)
    (hnd : ¬(view_number < p.global_state.last_garbage_collected_view_num ∧
      p.global_state.highest_view_num_builder_id.2 ≠
        p.global_state.last_garbage_collected_view_num)) :
    (∀ r, mlookup p.global_state.builder_state_to_last_built_block
        (for_parent, view_number) = some r →
      p.available_blocks for_parent view_number true .expired =
        .ok [signedBlockInfo p.builder_keys r]) ∧
    (mlookup p.global_state.builder_state_to_last_built_block
        (for_parent, view_number) = none →
      p.available_blocks for_parent view_number true .expired =
        .error .noBlocksAvailable) := by
  constructor
  · intro r hr
    simp [ProxyGlobalState.available_blocks, hnd, available_blocks_respond, hr]
  · intro hr
    simp [ProxyGlobalState.available_blocks, hnd, available_blocks_respond, hr]

/-- Witness for claim C5 at a concrete proxy with an empty cache. -/
theorem available_blocks_expired_fallback_witness :
    ProxyGlobalState.available_blocks ⟨GlobalState.new none 0 7 0 0, (4, 4)⟩ 7 3 true
      .expired = .error .noBlocksAvailable :=
  (available_blocks_expired_fallback ⟨GlobalState.new none 0 7 0 0, (4, 4)⟩ 7 3
    (by decide)).2 (by decide)

/-- Claim C7: every successful `available_blocks` call returns a
single-element list, and its signature field validates against the
`(block_size, offered_fee, block_hash)` tuple under the public key returned
by `builder_address`, provided the proxy holds a matched builder key pair. -/
theorem available_blocks_signature_validates (p : ProxyGlobalState)
    (for_parent view_number : Nat) (sigOk : Bool) (outcome : RecvOutcome)
    (l : List AvailableBlockInfo) (pk : Nat)
    (hkeys : p.builder_keys.1 = p.builder_keys.2)
    (haddr : p.builder_address = .ok pk)
    (hok : p.available_blocks for_parent view_number sigOk outcome = .ok l) :
    ∃ info, l = [info] ∧
      bvalidate pk info.signature (info.block_size, info.offered_fee, info.block_hash) =
        true := by
  have hpk : pk = p.builder_keys.1 := by
    have := haddr
    unfold ProxyGlobalState.builder_address at this
    exact (Except.ok.injEq _ _ ▸ this).symm ▸ rfl
  unfold ProxyGlobalState.available_blocks at hok
  cases sigOk with
  | false => simp at hok
  | true =>
    by_cases hc : view_number < p.global_state.last_garbage_collected_view_num ∧
        p.global_state.highest_view_num_builder_id.2 ≠
          p.global_state.last_garbage_collected_view_num
    · simp [hc] at hok
    · simp only [Bool.true_eq_false, if_false, if_neg hc] at hok
      have hval : ∀ r : ResponseMessage,
          bvalidate pk (signedBlockInfo p.builder_keys r).signature
            ((signedBlockInfo p.builder_keys r).block_size,
             (signedBlockInfo p.builder_keys r).offered_fee,
             (signedBlockInfo p.builder_keys r).block_hash) = true := by
        intro r
        simp [signedBlockInfo, sign_block_info, bsign, bvalidate, hpk, hkeys]
      cases outcome with
      | reply r =>
        simp only [available_blocks_respond, Except.ok.injEq] at hok
        exact ⟨signedBlockInfo p.builder_keys r, hok.symm, hval r⟩
      | expired =>
        cases hcache : mlookup p.global_state.builder_state_to_last_built_block
            (for_parent, view_number) with
        | none => rw [hcache] at hok; simp [available_blocks_respond] at hok
        | some r =>
          rw [hcache] at hok
          simp only [available_blocks_respond, Except.ok.injEq] at hok
          exact ⟨signedBlockInfo p.builder_keys r, hok.symm, hval r⟩
      | closed => simp [available_blocks_respond] at hok

/-- Witness for claim C7 at a concrete proxy and reply. -/
theorem available_blocks_signature_validates_witness :
    ∃ info, [signedBlockInfo (4, 4) ⟨5, 6, 7⟩] = [info] ∧
      bvalidate 4 info.signature (info.block_size, info.offered_fee, info.block_hash) =
        true :=
  available_blocks_signature_validates ⟨GlobalState.new none 0 7 0 0, (4, 4)⟩ 7 3 true
    (.reply ⟨5, 6, 7⟩) [signedBlockInfo (4, 4) ⟨5, 6, 7⟩] 4 rfl rfl rfl

/-- Claim C8: for a request whose signature validates against the block
hash, `claim_block` returns the stored payload, metadata, fee, fee
signature, commitment signature and builder public key exactly when
`(block_hash, view)` is present in the built map, and fails with
`BlockNotFound` when it is absent. -/
theorem claim_block_lookup (p : ProxyGlobalState) (block_hash view_number sender : Nat)
    (signature : BSig Nat) (hsig : bvalidate sender signature block_hash = true) :
    (∀ bi, mlookup p.global_state.block_hash_to_block (block_hash, view_number) =
        some bi →
      p.claim_block block_hash view_number sender signature =
        .ok { fee := bi.offered_fee
              fee_signature := bsign p.builder_keys.2 bi.offered_fee
              block_payload := bi.block_payload
              metadata := bi.metadata
              signature := bsign p.builder_keys.2
                (builder_commitment bi.block_payload bi.metadata)
              sender := p.builder_keys.1 }) ∧
    (mlookup p.global_state.block_hash_to_block (block_hash, view_number) = none →
      p.claim_block block_hash view_number sender signature = .error .blockNotFound) := by
  constructor
  · intro bi hbi
    simp [ProxyGlobalState.claim_block, hsig, hbi]
  · intro hbi
    simp [ProxyGlobalState.claim_block, hsig, hbi]

/-- Witness for claim C8 at a concrete proxy holding one built block. -/
theorem claim_block_lookup_witness :
    ProxyGlobalState.claim_block
        ⟨⟨none, [((11, 2), ⟨[], 0, 9⟩)], [((7, 0), 0)], [], 0, (7, 0)⟩, (4, 4)⟩
        11 2 5 (bsign 5 11) =
      .ok ⟨9, bsign 4 9, [], 0, bsign 4 (builder_commitment [] 0), 4⟩ :=
  (claim_block_lookup
    ⟨⟨none, [((11, 2), ⟨[], 0, 9⟩)], [((7, 0), 0)], [], 0, (7, 0)⟩, (4, 4)⟩
    11 2 5 (bsign 5 11) (by decide)).1 ⟨[], 0, 9⟩ (by decide)

/-- Claim C9: on every registry state reachable from bootstrap by register,
collect and record operations, the channel lookup returns the exact-match
sender when the key is registered and the highest-view sender otherwise; it
never returns the no-builder-state error, because the highest-view key is
always present in the (hence never empty) registry. -/
theorem channel_for_reachable (s : GlobalState) (h : Reachable s) (key : Nat × Nat) :
    (∀ c, mlookup s.spawned_builder_states key = some c →
      s.get_channel_for_matching_builder_or_highest_view_buider key = .ok c) ∧
    (mlookup s.spawned_builder_states key = none →
      ∃ c, mlookup s.spawned_builder_states s.highest_view_num_builder_id = some c ∧
        s.get_channel_for_matching_builder_or_highest_view_buider key = .ok c) ∧
    s.get_channel_for_matching_builder_or_highest_view_buider key ≠
      .error .noBuilderState := by
  obtain ⟨c0, hc0⟩ := reachable_highest_mem s h
  refine ⟨?_, ?_, ?_⟩
  · intro c hc
    simp [GlobalState.get_channel_for_matching_builder_or_highest_view_buider, hc]
  · intro hnone
    exact ⟨c0, hc0, by
      simp [GlobalState.get_channel_for_matching_builder_or_highest_view_buider,
        hnone, hc0]⟩
  · cases hk : mlookup s.spawned_builder_states key with
    | some c =>
      simp [GlobalState.get_channel_for_matching_builder_or_highest_view_buider, hk]
    | none =>
      simp [GlobalState.get_channel_for_matching_builder_or_highest_view_buider,
        hk, hc0]

/-- Witness for claim C9 at the bootstrap registry and an unregistered key. -/
theorem channel_for_reachable_witness :
    GlobalState.get_channel_for_matching_builder_or_highest_view_buider
        (GlobalState.new none 0 5 0 0) (1, 2) ≠ .error .noBuilderState :=
  (channel_for_reachable (GlobalState.new none 0 5 0 0)
    (Reachable.boot none 0 5 0 0) (1, 2)).2.2

/-- Claim C1 (builder-state actor modelled from the spec): a non-empty
build in response to a request at view `v0` advances the empty-block
deadline to `v0 + ALLOW_EMPTY_BLOCK_PERIOD`; afterwards, a state with that
deadline and an empty available mempool replies to a request at any view up
to the deadline on the first attempt with a size-0 block, while a request
beyond the deadline gets no reply, so the simulated consensus exhausts its
`R` retries and the gateway, with an empty last-built cache, fails with
`NoBlocksAvailable`. -/
theorem empty_block_window_policy
    (s0 : BuilderState) (v0 : Nat) (hacc : s0.anchorView ≤ v0)
    (hne : availTxs s0 v0 ≠ [])
    (s : BuilderState) (V : Nat)
    (hU : s.allowEmptyBlockUntil = V + ALLOW_EMPTY_BLOCK_PERIOD)
    (v : Nat) (hv : s.anchorView ≤ v) (hEmpty : availTxs s v = [])
    (R : Nat) (keys : Nat × Nat) :
    (processRequest s0 s0.anchorVC v0).2.allowEmptyBlockUntil =
      v0 + ALLOW_EMPTY_BLOCK_PERIOD ∧
    (v ≤ V + ALLOW_EMPTY_BLOCK_PERIOD →
      ∃ r, (processRequest s s.anchorVC v).1 = some r ∧ r.block_size = 0 ∧
        roundAttempts R (processRequest s s.anchorVC v).1 = 1) ∧
    (V + ALLOW_EMPTY_BLOCK_PERIOD < v →
      (processRequest s s.anchorVC v).1 = none ∧
      roundAttempts R (processRequest s s.anchorVC v).1 = R ∧
      available_blocks_respond keys none .expired = .error .noBlocksAvailable) := by
  refine ⟨?_, ?_, ?_⟩
  · simp [processRequest, hacc, hne]
  · intro hvle
    have hnlt : ¬(s.allowEmptyBlockUntil < v) := by
      rw [hU]
      exact Nat.not_lt_of_le hvle
    have hres : (processRequest s s.anchorVC v).1 =
        some { builder_hash := builder_commitment [] 0, block_size := 0,
               offered_fee := 0 } := by
      simp [processRequest, hv, hEmpty, hnlt, blockSize]
    exact ⟨_, hres, rfl, by rw [hres]; rfl⟩
  · intro hvgt
    have hlt : s.allowEmptyBlockUntil < v := hU ▸ hvgt
    have hres : (processRequest s s.anchorVC v).1 = none := by
      simp [processRequest, hv, hEmpty, hlt]
    exact ⟨hres, by rw [hres]; rfl, rfl⟩

/-- Witness for claim C1: a state with one unclaimed transaction builds a
non-empty block at view 1 and gets deadline 4; a drained successor with
deadline 4 answers view 2 on the first attempt. -/
theorem empty_block_window_policy_witness :
    availTxs ⟨0, 2, [], [], 4⟩ 2 = [] ∧
    roundAttempts 4 (processRequest ⟨0, 2, [], [], 4⟩ 0 2).1 = 1 := by
  have h := (empty_block_window_policy ⟨0, 0, [⟨0, [1]⟩], [], 0⟩ 1 (by decide)
    (by decide) ⟨0, 2, [], [], 4⟩ 1 rfl 2 (by decide) (by decide) 4 (0, 0)).2.1
    (by decide)
  obtain ⟨r, -, -, h3⟩ := h
  exact ⟨by decide, h3⟩

end MarketplaceBuilder
